import Mathlib

/-!
Shallow embedding of the barter-rs trading-engine core: the Position
accounting record (src/portfolio/position.rs), its enter/update/exit
operations, the EquityPoint running equity sample, the PositionBuilder
staged constructor, the PortfolioError taxonomy (src/portfolio/error.rs)
and the Trader lifecycle Initialise transition (src/engine/state/mod.rs).

Numeric f64 values are modelled as rationals. The fill quantity keeps the
f64 sign bit explicitly (sign-magnitude), because
Position::parse_entry_direction dispatches on f64::is_sign_positive and
f64::is_sign_negative, which classify the two floating-point zeros by
their sign bit. Division by zero follows the rational convention (zero);
every claim below restates the same division expression as the code, so
no claim depends on that convention.
-/

namespace Barter

/-- Trace UUIDs are opaque identifiers: only equality matters. -/
abbrev TraceId := Nat

/-- Timestamps are opaque instants: only equality matters. -/
abbrev Timestamp := Int

/-- FeeAmount from execution::fill: an f64 fee, modelled as a rational. -/
abbrev FeeAmount := ℚ

/-- Sign-magnitude model of an f64 quantity: the sign bit and the
non-negative magnitude. Both zeros are representable: the positive zero
has sign_negative = false, the negative zero has sign_negative = true. -/
structure F64 where
  sign_negative : Bool
  magnitude : ℚ
deriving DecidableEq

/-- The rational value an F64 denotes. -/
def F64.toRat (x : F64) : ℚ :=
  if x.sign_negative then -x.magnitude else x.magnitude

/-- Model of f64::is_sign_positive: true exactly when the sign bit is
clear, which includes the positive zero. -/
def F64.is_sign_positive (x : F64) : Bool :=
  !x.sign_negative

/-- Model of f64::is_sign_negative: true exactly when the sign bit is
set, which includes the negative zero. -/
def F64.is_sign_negative (x : F64) : Bool :=
  x.sign_negative

/-- Model of f64::abs on the denoted value. -/
def F64.abs (x : F64) : ℚ :=
  |x.toRat|

/-- Modelled from the spec: the Fees value object of execution::fill is
not under src/; the spec lists itemized fees as exchange, slippage and
network, and the tests in src/portfolio/position.rs construct exactly
these three fields. -/
structure Fees where
  exchange : FeeAmount
  slippage : FeeAmount
  network : FeeAmount
deriving DecidableEq

/-- Modelled from the spec: Fees::calculate_total_fees of execution::fill
is not under src/; the spec states the total is the sum of all itemized
fee components, never partial. -/
def Fees.calculate_total_fees (f : Fees) : FeeAmount :=
  f.exchange + f.slippage + f.network

/-- Modelled from the spec: Fees::default of execution::fill is not under
src/; the spec states exit fees are zero until exit, and the derived Rust
Default zeroes every component. -/
def Fees.default : Fees :=
  { exchange := 0, slippage := 0, network := 0 }

/-- Modelled from the spec: the Decision enum of strategy::signal is not
under src/; the spec lists Long, Short (entries) and CloseLong,
CloseShort (exits). -/
inductive Decision where
  | Long
  | Short
  | CloseLong
  | CloseShort
deriving DecidableEq

/-- Modelled from the spec: Decision::is_entry of strategy::signal is not
under src/; the spec names Long and Short as the entry decisions and
CloseLong and CloseShort as the closing decisions. -/
def Decision.is_entry : Decision → Bool
  | Decision.Long => true
  | Decision.Short => true
  | Decision.CloseLong => false
  | Decision.CloseShort => false

/-- Modelled from the spec: the Bar of data::market is not under src/;
the core reads only its close price. -/
structure Bar where
  close : ℚ
deriving DecidableEq

/-- Modelled from the spec: the MarketEvent of data::market is not under
src/; the spec gives its boundary shape as trace_id, timestamp and
bar.close. -/
structure MarketEvent where
  trace_id : TraceId
  timestamp : Timestamp
  bar : Bar
deriving DecidableEq

/-- Modelled from the spec: the market metadata carried by a FillEvent is
not under src/; position.rs reads fill.market_meta.timestamp, the
signal-time bar timestamp. -/
structure MarketMeta where
  timestamp : Timestamp
deriving DecidableEq

/-- Modelled from the spec: the FillEvent of execution::fill is not under
src/; the spec gives its boundary shape as trace_id, timestamp,
market_meta.timestamp, exchange, symbol, decision, quantity,
fill_value_gross and fees, which matches every field position.rs reads. -/
structure FillEvent where
  trace_id : TraceId
  timestamp : Timestamp
  market_meta : MarketMeta
  exchange : String
  symbol : String
  decision : Decision
  quantity : F64
  fill_value_gross : ℚ
  fees : Fees
deriving DecidableEq

/-- The PortfolioError enum of src/portfolio/error.rs. -/
inductive PortfolioError where
  | BuilderIncomplete
  | CalcProfitLossError
  | ParseEntryDirectionError
  | CannotEnterPositionWithExitFill
  | CannotExitPositionWithEntryFill
deriving DecidableEq

/-- EquityPoint of src/portfolio/position.rs: equity value at a point in
time. -/
structure EquityPoint where
  equity : ℚ
  timestamp : Timestamp
deriving DecidableEq

/-- PositionMeta of src/portfolio/position.rs: trace UUIDs, timestamps
and the exit equity snapshot of a Position. -/
structure PositionMeta where
  enter_trace_id : TraceId
  enter_bar_timestamp : Timestamp
  last_update_trace_id : TraceId
  last_update_timestamp : Timestamp
  exit_trace_id : Option TraceId
  exit_bar_timestamp : Option Timestamp
  exit_equity_point : Option EquityPoint
deriving DecidableEq

/-- Direction of src/portfolio/position.rs. -/
inductive Direction where
  | Long
  | Short
deriving DecidableEq

/-- Position of src/portfolio/position.rs, field for field. -/
structure Position where
  meta : PositionMeta
  exchange : String
  symbol : String
  direction : Direction
  quantity : F64
  enter_fees : Fees
  enter_fees_total : FeeAmount
  enter_avg_price_gross : ℚ
  enter_value_gross : ℚ
  exit_fees : Fees
  exit_fees_total : FeeAmount
  exit_avg_price_gross : ℚ
  exit_value_gross : ℚ
  current_symbol_price : ℚ
  current_value_gross : ℚ
  unreal_profit_loss : ℚ
  result_profit_loss : ℚ
deriving DecidableEq

/-- Position::calculate_avg_price_gross: (fill.fill_value_gross /
fill.quantity).abs(). -/
def Position.calculate_avg_price_gross (fill : FillEvent) : ℚ :=
  |fill.fill_value_gross / fill.quantity.toRat|

/-- Position::parse_entry_direction, line for line: the Long and Short
arms carry sign-bit guards, the Close arms reject, and everything else
falls to the wildcard arm. -/
def Position.parse_entry_direction (fill : FillEvent) : Except PortfolioError Direction :=
  match fill.decision with
  | Decision.Long =>
      if fill.quantity.is_sign_positive then Except.ok Direction.Long
      else Except.error PortfolioError.ParseEntryDirectionError
  | Decision.Short =>
      if fill.quantity.is_sign_negative then Except.ok Direction.Short
      else Except.error PortfolioError.ParseEntryDirectionError
  | Decision.CloseLong => Except.error PortfolioError.CannotEnterPositionWithExitFill
  | Decision.CloseShort => Except.error PortfolioError.CannotEnterPositionWithExitFill

/-- Position::calculate_unreal_profit_loss: approximate PnL of an open
Position, with the exit fee approximated by the entry fee. -/
def Position.calculate_unreal_profit_loss (p : Position) : ℚ :=
  let approx_total_fees := p.enter_fees_total * 2
  match p.direction with
  | Direction.Long => p.current_value_gross - p.enter_value_gross - approx_total_fees
  | Direction.Short => p.enter_value_gross - p.current_value_gross - approx_total_fees

/-- Position::calculate_result_profit_loss: exact PnL of a closed
Position. -/
def Position.calculate_result_profit_loss (p : Position) : ℚ :=
  let total_fees := p.enter_fees_total + p.exit_fees_total
  match p.direction with
  | Direction.Long => p.exit_value_gross - p.enter_value_gross - total_fees
  | Direction.Short => p.enter_value_gross - p.exit_value_gross - total_fees

/-- Position::calculate_profit_loss_return. -/
def Position.calculate_profit_loss_return (p : Position) : ℚ :=
  p.result_profit_loss / p.enter_value_gross

/-- PositionEnterer::enter for Position: builds the metadata, totals the
fees, derives the average entry price and the initial unrealised PnL,
then constructs the Position; the parse_entry_direction failure
propagates before any Position is produced, mirroring the ? operator
inside the Rust struct literal. -/
def Position.enter (fill : FillEvent) : Except PortfolioError Position :=
  let metadata : PositionMeta :=
    { enter_trace_id := fill.trace_id
      enter_bar_timestamp := fill.market_meta.timestamp
      last_update_trace_id := fill.trace_id
      last_update_timestamp := fill.timestamp
      exit_trace_id := none
      exit_bar_timestamp := none
      exit_equity_point := none }
  let enter_fees_total := fill.fees.calculate_total_fees
  let enter_avg_price_gross := Position.calculate_avg_price_gross fill
  let unreal_profit_loss := -enter_fees_total * 2
  match Position.parse_entry_direction fill with
  | Except.error e => Except.error e
  | Except.ok direction =>
      Except.ok
        { meta := metadata
          exchange := fill.exchange
          symbol := fill.symbol
          direction := direction
          quantity := fill.quantity
          enter_fees := fill.fees
          enter_fees_total := enter_fees_total
          enter_avg_price_gross := enter_avg_price_gross
          enter_value_gross := fill.fill_value_gross
          exit_fees := Fees.default
          exit_fees_total := 0
          exit_avg_price_gross := 0
          exit_value_gross := 0
          current_symbol_price := enter_avg_price_gross
          current_value_gross := fill.fill_value_gross
          unreal_profit_loss := unreal_profit_loss
          result_profit_loss := 0 }

/-- PositionUpdater::update for Position: sets the last-update metadata,
the current symbol price and gross value from the market bar close, then
recomputes the unrealised PnL on the updated record, in source order. -/
def Position.update (p : Position) (market : MarketEvent) : Position :=
  let p1 : Position :=
    { p with
      meta :=
        { p.meta with
          last_update_trace_id := market.trace_id
          last_update_timestamp := market.timestamp }
      current_symbol_price := market.bar.close
      current_value_gross := market.bar.close * p.quantity.abs }
  { p1 with unreal_profit_loss := p1.calculate_unreal_profit_loss }

/-- PositionExiter::exit for Position, modelled as explicit state
passing: the pair is the Position after the call and the Result value.
An entry-decision fill is rejected before any mutation; otherwise the
exit fees, value, price, PnL and metadata are written in source order.
The source never writes meta.exit_bar_timestamp. -/
def Position.exit (p : Position) (portfolio_value : ℚ) (fill : FillEvent) :
    Position × Except PortfolioError Unit :=
  if fill.decision.is_entry then
    (p, Except.error PortfolioError.CannotExitPositionWithEntryFill)
  else
    let p1 : Position :=
      { p with
        exit_fees := fill.fees
        exit_fees_total := fill.fees.calculate_total_fees
        exit_value_gross := fill.fill_value_gross
        exit_avg_price_gross := Position.calculate_avg_price_gross fill }
    let p2 : Position := { p1 with result_profit_loss := p1.calculate_result_profit_loss }
    let p3 : Position := { p2 with unreal_profit_loss := p2.result_profit_loss }
    let portfolio_value1 := portfolio_value + p3.result_profit_loss
    let p4 : Position :=
      { p3 with
        meta :=
          { p3.meta with
            last_update_trace_id := fill.trace_id
            last_update_timestamp := fill.timestamp
            exit_trace_id := some fill.trace_id
            exit_equity_point :=
              some { equity := portfolio_value1, timestamp := fill.market_meta.timestamp } } }
    (p4, Except.ok ())

/-- EquityPoint::update: dispatches on the exit bar timestamp of the
Position; an open Position contributes its unrealised PnL and its
last-update timestamp, a closed one its realised PnL and the exit
timestamp. -/
def EquityPoint.update (ep : EquityPoint) (position : Position) : EquityPoint :=
  match position.meta.exit_bar_timestamp with
  | none =>
      { equity := ep.equity + position.unreal_profit_loss
        timestamp := position.meta.last_update_timestamp }
  | some exit_timestamp =>
      { equity := ep.equity + position.result_profit_loss
        timestamp := exit_timestamp }

/-- PositionBuilder of src/portfolio/position.rs: every Position field as
an Option. -/
structure PositionBuilder where
  meta : Option PositionMeta
  exchange : Option String
  symbol : Option String
  direction : Option Direction
  quantity : Option F64
  enter_fees : Option Fees
  enter_fees_total : Option FeeAmount
  enter_avg_price_gross : Option ℚ
  enter_value_gross : Option ℚ
  exit_fees : Option Fees
  exit_fees_total : Option FeeAmount
  exit_avg_price_gross : Option ℚ
  exit_value_gross : Option ℚ
  current_symbol_price : Option ℚ
  current_value_gross : Option ℚ
  unreal_profit_loss : Option ℚ
  result_profit_loss : Option ℚ
deriving DecidableEq

/-- PositionBuilder::new: the derived Default, every field None. -/
def PositionBuilder.new : PositionBuilder :=
  { meta := none, exchange := none, symbol := none, direction := none
    quantity := none, enter_fees := none, enter_fees_total := none
    enter_avg_price_gross := none, enter_value_gross := none
    exit_fees := none, exit_fees_total := none, exit_avg_price_gross := none
    exit_value_gross := none, current_symbol_price := none
    current_value_gross := none, unreal_profit_loss := none
    result_profit_loss := none }

/-- Option::ok_or as position.rs uses it: Some maps to Ok, None to the
given error. -/
def ok_or {α : Type} (o : Option α) (e : PortfolioError) : Except PortfolioError α :=
  match o with
  | some a => Except.ok a
  | none => Except.error e

/-- PositionBuilder::build: every field is unwrapped with ok_or
BuilderIncomplete in source order, then the Position is assembled. -/
def PositionBuilder.build (b : PositionBuilder) : Except PortfolioError Position := do
  let meta ← ok_or b.meta PortfolioError.BuilderIncomplete
  let exchange ← ok_or b.exchange PortfolioError.BuilderIncomplete
  let symbol ← ok_or b.symbol PortfolioError.BuilderIncomplete
  let direction ← ok_or b.direction PortfolioError.BuilderIncomplete
  let quantity ← ok_or b.quantity PortfolioError.BuilderIncomplete
  let enter_fees ← ok_or b.enter_fees PortfolioError.BuilderIncomplete
  let enter_fees_total ← ok_or b.enter_fees_total PortfolioError.BuilderIncomplete
  let enter_avg_price_gross ← ok_or b.enter_avg_price_gross PortfolioError.BuilderIncomplete
  let enter_value_gross ← ok_or b.enter_value_gross PortfolioError.BuilderIncomplete
  let exit_fees ← ok_or b.exit_fees PortfolioError.BuilderIncomplete
  let exit_fees_total ← ok_or b.exit_fees_total PortfolioError.BuilderIncomplete
  let exit_avg_price_gross ← ok_or b.exit_avg_price_gross PortfolioError.BuilderIncomplete
  let exit_value_gross ← ok_or b.exit_value_gross PortfolioError.BuilderIncomplete
  let current_symbol_price ← ok_or b.current_symbol_price PortfolioError.BuilderIncomplete
  let current_value_gross ← ok_or b.current_value_gross PortfolioError.BuilderIncomplete
  let unreal_profit_loss ← ok_or b.unreal_profit_loss PortfolioError.BuilderIncomplete
  let result_profit_loss ← ok_or b.result_profit_loss PortfolioError.BuilderIncomplete
  Except.ok
    { meta := meta
      exchange := exchange
      symbol := symbol
      direction := direction
      quantity := quantity
      enter_fees := enter_fees
      enter_fees_total := enter_fees_total
      enter_avg_price_gross := enter_avg_price_gross
      enter_value_gross := enter_value_gross
      exit_fees := exit_fees
      exit_fees_total := exit_fees_total
      exit_avg_price_gross := exit_avg_price_gross
      exit_value_gross := exit_value_gross
      current_symbol_price := current_symbol_price
      current_value_gross := current_value_gross
      unreal_profit_loss := unreal_profit_loss
      result_profit_loss := result_profit_loss }

/-- Instruments of the Initialise state: a mapping from exchange to an
ordered sequence of instruments, with the barter_integration Exchange and
Instrument identifiers modelled as strings. -/
abbrev Instruments := List (String × List String)

/-- Initialise lifecycle state of src/engine/state/mod.rs; the PhantomData
marker carries no data and is dropped. -/
structure InitialiseState (Portfolio : Type) where
  instruments : Instruments

/-- Modelled from the spec: the Consume state payload of
engine/state/consume.rs is not under src/; the spec gives it as
Consume carrying the portfolio. -/
structure ConsumeState (Portfolio : Type) where
  portfolio : Portfolio

/-- Modelled from the spec: the Terminate state payload of
engine/state/terminate.rs is not under src/; the spec gives it as
Terminate carrying the final Result reason. -/
structure TerminateState (Error : Type) where
  reason : Except Error Unit

/-- Modelled from the spec: the Trader struct of engine/mod.rs is not
under src/; the destructuring inside init names its fields feed,
strategy, execution_tx and state. -/
structure Trader (Feed Strategy Tx State : Type) where
  feed : Feed
  strategy : Strategy
  execution_tx : Tx
  state : State

/-- Modelled from the spec: the Engine enum of engine/mod.rs is not under
src/; the spec gives it as the closed exhaustive union of the Trader in
its three lifecycle states. -/
inductive Engine (Feed Strategy Tx Error Portfolio : Type) where
  | initialise : Trader Feed Strategy Tx (InitialiseState Portfolio) →
      Engine Feed Strategy Tx Error Portfolio
  | consume : Trader Feed Strategy Tx (ConsumeState Portfolio) →
      Engine Feed Strategy Tx Error Portfolio
  | terminate : Trader Feed Strategy Tx (TerminateState Error) →
      Engine Feed Strategy Tx Error Portfolio

/-- Trader::init of src/engine/state/mod.rs: the Portfolio Initialiser
capability is passed explicitly as the function pInit, standing for the
trait method Portfolio::init(instruments, execution_tx, feed). On Ok the
Trader moves to Consume carrying the portfolio; on Err it moves to
Terminate carrying Err(error); the feed, strategy and execution channel
handles move across unchanged. -/
def Trader.init {Feed Strategy Tx Error Portfolio : Type}
    (pInit : Instruments → Tx → Feed → Except Error Portfolio)
    (t : Trader Feed Strategy Tx (InitialiseState Portfolio)) :
    Engine Feed Strategy Tx Error Portfolio :=
  match pInit t.state.instruments t.execution_tx t.feed with
  | Except.ok portfolio =>
      Engine.consume
        { feed := t.feed
          strategy := t.strategy
          execution_tx := t.execution_tx
          state := { portfolio := portfolio } }
  | Except.error error =>
      Engine.terminate
        { feed := t.feed
          strategy := t.strategy
          execution_tx := t.execution_tx
          state := { reason := Except.error error } }

/-! Concrete sample values used by counterexamples and witnesses. -/

/-- A valid Long entry fill: quantity +1.0, gross value 100, fees 1+1+1. -/
def longFill : FillEvent :=
  { trace_id := 1
    timestamp := 2
    market_meta := { timestamp := 1 }
    exchange := "BINANCE"
    symbol := "ETH-USD"
    decision := Decision.Long
    quantity := { sign_negative := false, magnitude := 1 }
    fill_value_gross := 100
    fees := { exchange := 1, slippage := 1, network := 1 } }

/-- A Long entry fill whose quantity is the positive floating-point zero. -/
def zeroQtyLongFill : FillEvent :=
  { longFill with quantity := { sign_negative := false, magnitude := 0 } }

/-- A CloseLong exit fill: quantity -1.0, gross value 200, fees 1+1+1. -/
def closeLongFill : FillEvent :=
  { trace_id := 7
    timestamp := 5
    market_meta := { timestamp := 4 }
    exchange := "BINANCE"
    symbol := "ETH-USD"
    decision := Decision.CloseLong
    quantity := { sign_negative := true, magnitude := 1 }
    fill_value_gross := 200
    fees := { exchange := 1, slippage := 1, network := 1 } }

/-- The open Position that Position::enter produces from longFill. -/
def samplePosition : Position :=
  { meta :=
      { enter_trace_id := 1
        enter_bar_timestamp := 1
        last_update_trace_id := 1
        last_update_timestamp := 2
        exit_trace_id := none
        exit_bar_timestamp := none
        exit_equity_point := none }
    exchange := "BINANCE"
    symbol := "ETH-USD"
    direction := Direction.Long
    quantity := { sign_negative := false, magnitude := 1 }
    enter_fees := { exchange := 1, slippage := 1, network := 1 }
    enter_fees_total := 3
    enter_avg_price_gross := 100
    enter_value_gross := 100
    exit_fees := { exchange := 0, slippage := 0, network := 0 }
    exit_fees_total := 0
    exit_avg_price_gross := 0
    exit_value_gross := 0
    current_symbol_price := 100
    current_value_gross := 100
    unreal_profit_loss := -6
    result_profit_loss := 0 }

/-- A market event with bar close 200. -/
def sampleMarket : MarketEvent :=
  { trace_id := 9, timestamp := 6, bar := { close := 200 } }

/-- C1 (amended): Position::parse_entry_direction returns Long exactly
when the decision is Long and the quantity has a positive f64 sign bit
(strictly positive or the positive zero), Short exactly when the decision
is Short and the sign bit is negative (strictly negative or the negative
zero), CannotEnterPositionWithExitFill exactly for CloseLong and
CloseShort, and ParseEntryDirectionError exactly for the remaining
sign/decision combinations; Position::enter propagates every parse
failure unchanged and produces a Position with the parsed direction on
every parse success. Zero-quantity fills are not rejected as such: they
are classified by the sign bit of the zero. -/
theorem parse_entry_direction_cases (fill : FillEvent) :
    (Position.parse_entry_direction fill = Except.ok Direction.Long ↔
      fill.decision = Decision.Long ∧ fill.quantity.is_sign_positive = true)
  ∧ (Position.parse_entry_direction fill = Except.ok Direction.Short ↔
      fill.decision = Decision.Short ∧ fill.quantity.is_sign_negative = true)
  ∧ (Position.parse_entry_direction fill =
        Except.error PortfolioError.CannotEnterPositionWithExitFill ↔
      fill.decision = Decision.CloseLong ∨ fill.decision = Decision.CloseShort)
  ∧ (Position.parse_entry_direction fill =
        Except.error PortfolioError.ParseEntryDirectionError ↔
      (fill.decision = Decision.Long ∧ fill.quantity.is_sign_positive = false) ∨
      (fill.decision = Decision.Short ∧ fill.quantity.is_sign_negative = false))
  ∧ (∀ e, Position.parse_entry_direction fill = Except.error e →
      Position.enter fill = Except.error e)
  ∧ (∀ d, Position.parse_entry_direction fill = Except.ok d →
      ∃ p, Position.enter fill = Except.ok p ∧ p.direction = d) := by
  obtain ⟨tid, ts, mm, ex, sy, d, q, fvg, fees⟩ := fill
  obtain ⟨sn, mag⟩ := q
  cases d <;> cases sn <;>
    simp [Position.parse_entry_direction, Position.enter, F64.is_sign_positive,
      F64.is_sign_negative]

/-- C1 counterexample: the fill with decision Long and quantity +0.0 is
parsed as a Long entry, not rejected with ParseEntryDirectionError as the
claim states for every zero-quantity fill. -/
theorem parse_entry_direction_zero_quantity_counterexample :
    zeroQtyLongFill.decision = Decision.Long
  ∧ zeroQtyLongFill.quantity.toRat = 0
  ∧ Position.parse_entry_direction zeroQtyLongFill = Except.ok Direction.Long
  ∧ Position.parse_entry_direction zeroQtyLongFill ≠
      Except.error PortfolioError.ParseEntryDirectionError := by
  refine ⟨rfl, rfl, rfl, ?_⟩
  intro h
  exact Except.noConfusion h

/-- C2 (code-bug evidence): exiting the sample open Long Position with
the CloseLong fill succeeds and records the exit trace id and the
last-update trace id and timestamp from the fill, but meta.
exit_bar_timestamp stays None: Position::exit never writes it, although
the claim and the spec say the exit bar timestamp is recorded. -/
theorem exit_leaves_exit_bar_timestamp_none :
    (samplePosition.exit 10000 closeLongFill).2 = Except.ok ()
  ∧ (samplePosition.exit 10000 closeLongFill).1.meta.exit_trace_id =
      some closeLongFill.trace_id
  ∧ (samplePosition.exit 10000 closeLongFill).1.meta.last_update_trace_id =
      closeLongFill.trace_id
  ∧ (samplePosition.exit 10000 closeLongFill).1.meta.last_update_timestamp =
      closeLongFill.timestamp
  ∧ (samplePosition.exit 10000 closeLongFill).1.meta.exit_bar_timestamp = none :=
  ⟨rfl, rfl, rfl, rfl, rfl⟩

/-- C3: on any Position, Position::exit with a CloseLong or CloseShort
fill succeeds, and afterwards the exit fees total is the sum of the
itemized fee components, the exit average gross price is the absolute
quotient of the fill gross value by the fill quantity, the exit gross
value is the fill gross value, the realised PnL follows the Long and
Short formulas with the exact total fees, the unrealised PnL is frozen
equal to the realised PnL, and the exit equity point holds the portfolio
value plus the realised PnL stamped with the fill market-time
timestamp. -/
theorem exit_close_fill_accounting (pos : Position) (pv : ℚ) (fill : FillEvent)
    (h : fill.decision = Decision.CloseLong ∨ fill.decision = Decision.CloseShort) :
    (pos.exit pv fill).2 = Except.ok ()
  ∧ (pos.exit pv fill).1.exit_fees_total =
      fill.fees.exchange + fill.fees.slippage + fill.fees.network
  ∧ (pos.exit pv fill).1.exit_avg_price_gross =
      |fill.fill_value_gross / fill.quantity.toRat|
  ∧ (pos.exit pv fill).1.exit_value_gross = fill.fill_value_gross
  ∧ (pos.direction = Direction.Long →
      (pos.exit pv fill).1.result_profit_loss =
        (pos.exit pv fill).1.exit_value_gross - pos.enter_value_gross -
          (pos.enter_fees_total + (pos.exit pv fill).1.exit_fees_total))
  ∧ (pos.direction = Direction.Short →
      (pos.exit pv fill).1.result_profit_loss =
        pos.enter_value_gross - (pos.exit pv fill).1.exit_value_gross -
          (pos.enter_fees_total + (pos.exit pv fill).1.exit_fees_total))
  ∧ (pos.exit pv fill).1.unreal_profit_loss = (pos.exit pv fill).1.result_profit_loss
  ∧ (pos.exit pv fill).1.meta.exit_equity_point =
      some { equity := pv + (pos.exit pv fill).1.result_profit_loss
             timestamp := fill.market_meta.timestamp } := by
  have hne : fill.decision.is_entry = false := by
    rcases h with h | h <;> simp [h, Decision.is_entry]
  cases hd : pos.direction <;>
    simp [Position.exit, hne, hd, Fees.calculate_total_fees,
      Position.calculate_avg_price_gross, Position.calculate_result_profit_loss]

/-- C3 witness: the sample Long Position exited at portfolio value 10000
by the CloseLong fill with gross value 200 and fees 3, realising
200 - 100 - 6 = 94 and an exit equity point of 10094 at the fill
market-time timestamp. -/
theorem exit_close_fill_accounting_witness :
    (closeLongFill.decision = Decision.CloseLong ∨
      closeLongFill.decision = Decision.CloseShort)
  ∧ (samplePosition.exit 10000 closeLongFill).2 = Except.ok ()
  ∧ (samplePosition.exit 10000 closeLongFill).1.result_profit_loss = 94
  ∧ (samplePosition.exit 10000 closeLongFill).1.unreal_profit_loss = 94
  ∧ (samplePosition.exit 10000 closeLongFill).1.meta.exit_equity_point =
      some { equity := 10094, timestamp := 4 } :=
  ⟨Or.inl rfl,
   (exit_close_fill_accounting samplePosition 10000 closeLongFill (Or.inl rfl)).1,
   by with_unfolding_all rfl, by with_unfolding_all rfl, by with_unfolding_all rfl⟩

/-- C4: Position::update never fails and sets the current symbol price to
the market bar close, the current gross value to that close times the
absolute quantity, the unrealised PnL to the Long and Short formulas with
the doubled entry fee approximation, and the last-update trace id and
timestamp from the market event, while leaving every entry field
unchanged. -/
theorem update_market_effects (p : Position) (market : MarketEvent) :
    (p.update market).current_symbol_price = market.bar.close
  ∧ (p.update market).current_value_gross = market.bar.close * |p.quantity.toRat|
  ∧ (p.direction = Direction.Long →
      (p.update market).unreal_profit_loss =
        (p.update market).current_value_gross - p.enter_value_gross -
          2 * p.enter_fees_total)
  ∧ (p.direction = Direction.Short →
      (p.update market).unreal_profit_loss =
        p.enter_value_gross - (p.update market).current_value_gross -
          2 * p.enter_fees_total)
  ∧ (p.update market).meta.last_update_trace_id = market.trace_id
  ∧ (p.update market).meta.last_update_timestamp = market.timestamp
  ∧ (p.update market).direction = p.direction
  ∧ (p.update market).quantity = p.quantity
  ∧ (p.update market).enter_fees = p.enter_fees
  ∧ (p.update market).enter_fees_total = p.enter_fees_total
  ∧ (p.update market).enter_avg_price_gross = p.enter_avg_price_gross
  ∧ (p.update market).enter_value_gross = p.enter_value_gross := by
  cases hd : p.direction <;>
    simp [Position.update, Position.calculate_unreal_profit_loss, F64.abs, hd] <;>
    ring

/-- C5: EquityPoint::update is purely additive: for an open Position
(no exit bar timestamp) it adds the unrealised PnL and takes the
last-update timestamp; for a closed one it adds the realised PnL and
takes the exit timestamp; the resulting EquityPoint is determined by
nothing else. -/
theorem equity_point_update_additive (ep : EquityPoint) (pos : Position) :
    (pos.meta.exit_bar_timestamp = none →
      EquityPoint.update ep pos =
        { equity := ep.equity + pos.unreal_profit_loss
          timestamp := pos.meta.last_update_timestamp })
  ∧ ∀ t, pos.meta.exit_bar_timestamp = some t →
      EquityPoint.update ep pos =
        { equity := ep.equity + pos.result_profit_loss, timestamp := t } := by
  constructor
  · intro h
    simp [EquityPoint.update, h]
  · intro t h
    simp [EquityPoint.update, h]

/-- C6: whenever Position::enter succeeds, the returned Position has the
entry fees total as the sum of the itemized fee components, the entry
average gross price as the absolute quotient of the fill gross value by
the quantity, the unrealised PnL initialised to minus twice the entry
fees total, the current price and gross value initialised to the entry
price and value, and every exit field zero or default. -/
theorem enter_success_fields (fill : FillEvent) (p : Position)
    (h : Position.enter fill = Except.ok p) :
    p.enter_fees_total = fill.fees.exchange + fill.fees.slippage + fill.fees.network
  ∧ p.enter_avg_price_gross = |fill.fill_value_gross / fill.quantity.toRat|
  ∧ p.unreal_profit_loss = -2 * p.enter_fees_total
  ∧ p.current_symbol_price = p.enter_avg_price_gross
  ∧ p.current_value_gross = fill.fill_value_gross
  ∧ p.enter_value_gross = fill.fill_value_gross
  ∧ p.exit_fees = { exchange := 0, slippage := 0, network := 0 }
  ∧ p.exit_fees_total = 0
  ∧ p.exit_avg_price_gross = 0
  ∧ p.exit_value_gross = 0
  ∧ p.result_profit_loss = 0 := by
  rw [Position.enter] at h
  cases hpd : Position.parse_entry_direction fill with
  | error e =>
      rw [hpd] at h
      exact absurd h (by simp)
  | ok d =>
      rw [hpd] at h
      simp only [Except.ok.injEq] at h
      subst h
      refine ⟨rfl, rfl, ?_, rfl, rfl, rfl, rfl, rfl, rfl, rfl, rfl⟩
      show -fill.fees.calculate_total_fees * 2 = -2 * fill.fees.calculate_total_fees
      ring

/-- C6 witness: entering on the sample Long fill yields the sample
Position, whose entry fees total 3, whose entry average gross price is
100, and whose initial unrealised PnL is -6. -/
theorem enter_success_fields_witness :
    Position.enter longFill = Except.ok samplePosition
  ∧ samplePosition.enter_fees_total = 3
  ∧ samplePosition.enter_avg_price_gross = 100
  ∧ samplePosition.unreal_profit_loss = -2 * samplePosition.enter_fees_total
  ∧ samplePosition.exit_fees_total = 0 :=
  ⟨by with_unfolding_all rfl, rfl, rfl,
   (enter_success_fields longFill samplePosition (by with_unfolding_all rfl)).2.2.1, rfl⟩

/-- C7: Trader::init in the Initialise state produces exactly one of two
results: Engine::Consume carrying the portfolio the Initialiser returned,
or Engine::Terminate whose reason is Err of the error the Initialiser
returned; the feed, strategy and execution handles move across unchanged,
the Initialiser is consulted once, and the result is never an Initialise
state again. -/
theorem trader_init_transitions {Feed Strategy Tx Error Portfolio : Type}
    (pInit : Instruments → Tx → Feed → Except Error Portfolio)
    (t : Trader Feed Strategy Tx (InitialiseState Portfolio)) :
    ((∃ p, pInit t.state.instruments t.execution_tx t.feed = Except.ok p ∧
        Trader.init pInit t = Engine.consume
          { feed := t.feed, strategy := t.strategy, execution_tx := t.execution_tx,
            state := { portfolio := p } }) ∨
     (∃ e, pInit t.state.instruments t.execution_tx t.feed = Except.error e ∧
        Trader.init pInit t = Engine.terminate
          { feed := t.feed, strategy := t.strategy, execution_tx := t.execution_tx,
            state := { reason := Except.error e } }))
  ∧ ∀ tr, Trader.init pInit t ≠ Engine.initialise tr := by
  constructor
  · cases hres : pInit t.state.instruments t.execution_tx t.feed with
    | ok p => exact Or.inl ⟨p, rfl, by simp [Trader.init, hres]⟩
    | error e => exact Or.inr ⟨e, rfl, by simp [Trader.init, hres]⟩
  · intro tr
    cases hres : pInit t.state.instruments t.execution_tx t.feed with
    | ok p => simp [Trader.init, hres]
    | error e => simp [Trader.init, hres]

/-- Some maps to Ok under ok_or. -/
theorem ok_or_some {α : Type} (a : α) (e : PortfolioError) :
    ok_or (some a) e = Except.ok a := rfl

/-- None maps to the given error under ok_or. -/
theorem ok_or_none {α : Type} (e : PortfolioError) :
    ok_or (none : Option α) e = Except.error e := rfl

/-- Bind on an Ok value applies the continuation. -/
theorem except_bind_ok {α β : Type} (a : α) (f : α → Except PortfolioError β) :
    (Except.ok a >>= f) = f a := rfl

/-- Bind on an error short-circuits. -/
theorem except_bind_error {α β : Type} (e : PortfolioError)
    (f : α → Except PortfolioError β) :
    ((Except.error e : Except PortfolioError α) >>= f) = Except.error e := rfl

/-- C8: PositionBuilder::build fails with BuilderIncomplete exactly when
at least one field is unset, and when every field is set it succeeds with
a Position whose fields are exactly the values the builder holds. -/
theorem position_builder_build_spec (b : PositionBuilder) :
    (b.build = Except.error PortfolioError.BuilderIncomplete ↔
      (b.meta = none ∨ b.exchange = none ∨ b.symbol = none ∨ b.direction = none ∨
       b.quantity = none ∨ b.enter_fees = none ∨ b.enter_fees_total = none ∨
       b.enter_avg_price_gross = none ∨ b.enter_value_gross = none ∨
       b.exit_fees = none ∨ b.exit_fees_total = none ∨
       b.exit_avg_price_gross = none ∨ b.exit_value_gross = none ∨
       b.current_symbol_price = none ∨ b.current_value_gross = none ∨
       b.unreal_profit_loss = none ∨ b.result_profit_loss = none))
  ∧ ∀ (m : PositionMeta) (ex sy : String) (d : Direction) (q : F64) (ef : Fees)
      (eft : FeeAmount) (eapg evg : ℚ) (xf : Fees) (xft : FeeAmount)
      (xapg xvg csp cvg upl rpl : ℚ),
      b = { meta := some m, exchange := some ex, symbol := some sy,
            direction := some d, quantity := some q, enter_fees := some ef,
            enter_fees_total := some eft, enter_avg_price_gross := some eapg,
            enter_value_gross := some evg, exit_fees := some xf,
            exit_fees_total := some xft, exit_avg_price_gross := some xapg,
            exit_value_gross := some xvg, current_symbol_price := some csp,
            current_value_gross := some cvg, unreal_profit_loss := some upl,
            result_profit_loss := some rpl } →
      b.build = Except.ok
        { meta := m, exchange := ex, symbol := sy, direction := d, quantity := q,
          enter_fees := ef, enter_fees_total := eft, enter_avg_price_gross := eapg,
          enter_value_gross := evg, exit_fees := xf, exit_fees_total := xft,
          exit_avg_price_gross := xapg, exit_value_gross := xvg,
          current_symbol_price := csp, current_value_gross := cvg,
          unreal_profit_loss := upl, result_profit_loss := rpl } := by
  constructor
  · rcases hf1 : b.meta with _ | v1
    · simp [PositionBuilder.build, hf1, ok_or_none, except_bind_error]
    rcases hf2 : b.exchange with _ | v2
    · simp [PositionBuilder.build, hf1, hf2, ok_or_some, ok_or_none,
        except_bind_ok, except_bind_error]
    rcases hf3 : b.symbol with _ | v3
    · simp [PositionBuilder.build, hf1, hf2, hf3, ok_or_some, ok_or_none,
        except_bind_ok, except_bind_error]
    rcases hf4 : b.direction with _ | v4
    · simp [PositionBuilder.build, hf1, hf2, hf3, hf4, ok_or_some, ok_or_none,
        except_bind_ok, except_bind_error]
    rcases hf5 : b.quantity with _ | v5
    · simp [PositionBuilder.build, hf1, hf2, hf3, hf4, hf5, ok_or_some,
        ok_or_none, except_bind_ok, except_bind_error]
    rcases hf6 : b.enter_fees with _ | v6
    · simp [PositionBuilder.build, hf1, hf2, hf3, hf4, hf5, hf6, ok_or_some,
        ok_or_none, except_bind_ok, except_bind_error]
    rcases hf7 : b.enter_fees_total with _ | v7
    · simp [PositionBuilder.build, hf1, hf2, hf3, hf4, hf5, hf6, hf7,
        ok_or_some, ok_or_none, except_bind_ok, except_bind_error]
    rcases hf8 : b.enter_avg_price_gross with _ | v8
    · simp [PositionBuilder.build, hf1, hf2, hf3, hf4, hf5, hf6, hf7, hf8,
        ok_or_some, ok_or_none, except_bind_ok, except_bind_error]
    rcases hf9 : b.enter_value_gross with _ | v9
    · simp [PositionBuilder.build, hf1, hf2, hf3, hf4, hf5, hf6, hf7, hf8,
        hf9, ok_or_some, ok_or_none, except_bind_ok, except_bind_error]
    rcases hf10 : b.exit_fees with _ | v10
    · simp [PositionBuilder.build, hf1, hf2, hf3, hf4, hf5, hf6, hf7, hf8,
        hf9, hf10, ok_or_some, ok_or_none, except_bind_ok, except_bind_error]
    rcases hf11 : b.exit_fees_total with _ | v11
    · simp [PositionBuilder.build, hf1, hf2, hf3, hf4, hf5, hf6, hf7, hf8,
        hf9, hf10, hf11, ok_or_some, ok_or_none, except_bind_ok,
        except_bind_error]
    rcases hf12 : b.exit_avg_price_gross with _ | v12
    · simp [PositionBuilder.build, hf1, hf2, hf3, hf4, hf5, hf6, hf7, hf8,
        hf9, hf10, hf11, hf12, ok_or_some, ok_or_none, except_bind_ok,
        except_bind_error]
    rcases hf13 : b.exit_value_gross with _ | v13
    · simp [PositionBuilder.build, hf1, hf2, hf3, hf4, hf5, hf6, hf7, hf8,
        hf9, hf10, hf11, hf12, hf13, ok_or_some, ok_or_none, except_bind_ok,
        except_bind_error]
    rcases hf14 : b.current_symbol_price with _ | v14
    · simp [PositionBuilder.build, hf1, hf2, hf3, hf4, hf5, hf6, hf7, hf8,
        hf9, hf10, hf11, hf12, hf13, hf14, ok_or_some, ok_or_none,
        except_bind_ok, except_bind_error]
    rcases hf15 : b.current_value_gross with _ | v15
    · simp [PositionBuilder.build, hf1, hf2, hf3, hf4, hf5, hf6, hf7, hf8,
        hf9, hf10, hf11, hf12, hf13, hf14, hf15, ok_or_some, ok_or_none,
        except_bind_ok, except_bind_error]
    rcases hf16 : b.unreal_profit_loss with _ | v16
    · simp [PositionBuilder.build, hf1, hf2, hf3, hf4, hf5, hf6, hf7, hf8,
        hf9, hf10, hf11, hf12, hf13, hf14, hf15, hf16, ok_or_some, ok_or_none,
        except_bind_ok, except_bind_error]
    rcases hf17 : b.result_profit_loss with _ | v17
    · simp [PositionBuilder.build, hf1, hf2, hf3, hf4, hf5, hf6, hf7, hf8,
        hf9, hf10, hf11, hf12, hf13, hf14, hf15, hf16, hf17, ok_or_some,
        ok_or_none, except_bind_ok, except_bind_error]
    simp [PositionBuilder.build, hf1, hf2, hf3, hf4, hf5, hf6, hf7, hf8, hf9,
      hf10, hf11, hf12, hf13, hf14, hf15, hf16, hf17, ok_or_some, ok_or_none,
      except_bind_ok, except_bind_error]
  · intro m ex sy d q ef eft eapg evg xf xft xapg xvg csp cvg upl rpl hb
    subst hb
    rfl

/-- C9: a successful exit of a Position whose exit bar timestamp was None
leaves that timestamp None, so EquityPoint::update on the exited Position
takes the open branch: it adds the unrealised PnL, which exit froze equal
to the realised PnL, and stamps the last-update timestamp, which is the
fill timestamp, not any exit timestamp. -/
theorem exit_open_meta_equity_open_branch (pos : Position) (pv : ℚ)
    (fill : FillEvent)
    (hopen : pos.meta.exit_bar_timestamp = none)
    (hok : (pos.exit pv fill).2 = Except.ok ()) :
    (pos.exit pv fill).1.meta.exit_bar_timestamp = none
  ∧ (pos.exit pv fill).1.unreal_profit_loss = (pos.exit pv fill).1.result_profit_loss
  ∧ (pos.exit pv fill).1.meta.last_update_timestamp = fill.timestamp
  ∧ ∀ ep : EquityPoint, EquityPoint.update ep (pos.exit pv fill).1 =
      { equity := ep.equity + (pos.exit pv fill).1.unreal_profit_loss
        timestamp := fill.timestamp } := by
  cases he : fill.decision.is_entry with
  | true => simp [Position.exit, he] at hok
  | false => simp [Position.exit, he, EquityPoint.update, hopen]

/-- C9 witness: the sample open Position exited by the CloseLong fill
keeps exit_bar_timestamp None and routes EquityPoint::update through the
open branch with the fill timestamp. -/
theorem exit_open_meta_equity_open_branch_witness :
    samplePosition.meta.exit_bar_timestamp = none
  ∧ (samplePosition.exit 10000 closeLongFill).2 = Except.ok ()
  ∧ ((samplePosition.exit 10000 closeLongFill).1.meta.exit_bar_timestamp = none
     ∧ (samplePosition.exit 10000 closeLongFill).1.unreal_profit_loss =
         (samplePosition.exit 10000 closeLongFill).1.result_profit_loss
     ∧ (samplePosition.exit 10000 closeLongFill).1.meta.last_update_timestamp =
         closeLongFill.timestamp
     ∧ ∀ ep : EquityPoint,
         EquityPoint.update ep (samplePosition.exit 10000 closeLongFill).1 =
           { equity := ep.equity +
               (samplePosition.exit 10000 closeLongFill).1.unreal_profit_loss
             timestamp := closeLongFill.timestamp }) :=
  ⟨rfl, rfl, exit_open_meta_equity_open_branch samplePosition 10000 closeLongFill rfl rfl⟩

/-- C10: Position::exit on any Position with an entry-decision fill (Long
or Short) returns CannotExitPositionWithEntryFill and the Position is
exactly as before the call: the check precedes every mutation. -/
theorem exit_entry_fill_rejected (pos : Position) (pv : ℚ) (fill : FillEvent)
    (h : fill.decision = Decision.Long ∨ fill.decision = Decision.Short) :
    pos.exit pv fill =
      (pos, Except.error PortfolioError.CannotExitPositionWithEntryFill) := by
  rcases h with h | h <;> simp [Position.exit, Decision.is_entry, h]

/-- C10 witness: exiting the sample Position with the Long entry fill is
rejected and the Position is returned unchanged. -/
theorem exit_entry_fill_rejected_witness :
    (longFill.decision = Decision.Long ∨ longFill.decision = Decision.Short)
  ∧ samplePosition.exit 10000 longFill =
      (samplePosition, Except.error PortfolioError.CannotExitPositionWithEntryFill) :=
  ⟨Or.inl rfl, exit_entry_fill_rejected samplePosition 10000 longFill (Or.inl rfl)⟩

end Barter
